import Mathlib

/-!
Shallow embedding of the virtual-museum client (`src/main.js`): the
first-person movement / collision / artwork-focus core.  JavaScript numbers
are embedded as exact rationals (`ℚ`); all geometric data appearing in the
source is rational, and square roots / angles produced by the THREE.js
library are taken as inputs where they matter (documented per definition).
-/

/-- A 3-component vector, embedding `THREE.Vector3` (only ever used here with
rational coordinates). -/
structure Vec3 where
  x : ℚ
  y : ℚ
  z : ℚ
deriving DecidableEq, Repr, Inhabited

/-- Museum room width, `const ROOM_WIDTH = 50` (`src/main.js:22`). -/
def ROOM_WIDTH : ℚ := 50

/-- Museum room height, `const ROOM_HEIGHT = 6` (`src/main.js:23`). -/
def ROOM_HEIGHT : ℚ := 6

/-- Museum room length, `const ROOM_LENGTH = 30` (`src/main.js:24`). -/
def ROOM_LENGTH : ℚ := 30

/-- Gravity constant, `const GRAVITY = -30` (`src/main.js:11`). -/
def GRAVITY : ℚ := -30

/-- Jump impulse, `const JUMP_FORCE = 10` (`src/main.js:12`). -/
def JUMP_FORCE : ℚ := 10

/-- The `type` tag of an entry of the `furniture` array: the source pushes
entries tagged `'planter'`, `'bench'` or `'decoration'`. -/
inductive FurnitureType where
  | planter
  | bench
  | decoration
deriving DecidableEq, Repr

/-- One entry of the `furniture` array (pushed at `src/main.js:278`, `389`,
`1154`, `1303`).  `rotation` is `none` for the planter entries (the source
object literal has no `rotation` key, so the JS value is `undefined`); where
present it is stored as a rational multiple of `π/2` (all rotations the
source pushes are `0`, or `Math.random() * Math.PI/2` for gift boxes, i.e.
a draw in `[0,1)` in these units).  The collision code only ever compares a
rotation with `0`, and rescaling by `π/2` preserves that comparison. -/
structure FurnitureItem where
  type : FurnitureType
  position : Vec3
  dimensions : Vec3
  rotation : Option ℚ
deriving DecidableEq, Repr

/-- The bound-swap test of `checkFurnitureCollision`
(`src/main.js:1566`): `item.type === 'bench' && item.rotation !== 0`.
(`undefined !== 0` is `true` in JS, hence `none` counts as nonzero.) -/
def rotSwapFlag (it : FurnitureItem) : Prop :=
  it.type = FurnitureType.bench ∧ it.rotation ≠ some 0

instance (it : FurnitureItem) : Decidable (rotSwapFlag it) := by
  unfold rotSwapFlag; infer_instance

/-- `const benchSeatHeight = 1.0` (`src/main.js:1577`). -/
def benchSeatHeight : ℚ := 1

/-- `const benchTotalHeight = 1.0` (`src/main.js:1578`). -/
def benchTotalHeight : ℚ := 1

/-- The body of the `for` loop of `checkFurnitureCollision`
(`src/main.js:1558-1610`) for one furniture item: `some b` means the loop
body executes `return b`, `none` means control falls through to the next
item. -/
def itemCheck (newPosition : Vec3) (it : FurnitureItem) : Option Bool :=
  let dx := newPosition.x - it.position.x
  let dz := newPosition.z - it.position.z
  let xBound := if rotSwapFlag it then it.dimensions.z / 2 else it.dimensions.x / 2
  let zBound := if rotSwapFlag it then it.dimensions.x / 2 else it.dimensions.z / 2
  if |dx| < xBound + 3/10 ∧ |dz| < zBound + 3/10 then
    if it.type = FurnitureType.bench then
      let playerHeight := newPosition.y
      if playerHeight > benchTotalHeight + 1 then some false
      else if |playerHeight - 3| < 1/10 then
        if |dx| < xBound - 1/10 ∧ |dz| < zBound - 1/10 then some false else some true
      else if playerHeight ≤ benchTotalHeight + 1 then some true
      else none
    else some true
  else none

/-- `checkFurnitureCollision(newPosition)` (`src/main.js:1557-1612`),
parameterised by the `furniture` array: scans the items in order and returns
the decision of the first item whose loop body returns (note the source
`return false` branches terminate the whole scan, not just one item);
`false` if no loop body returns. -/
def checkFurnitureCollision (furniture : List FurnitureItem) (newPosition : Vec3) : Bool :=
  match furniture with
  | [] => false
  | it :: rest => (itemCheck newPosition it).getD (checkFurnitureCollision rest newPosition)

/-- The furniture entry pushed by `createPlanter(x, z)` (`src/main.js:278-282`);
the object literal has no `rotation` key. -/
def createPlanterEntry (x z : ℚ) : FurnitureItem :=
  { type := FurnitureType.planter
  , position := ⟨x, 0, z⟩
  , dimensions := ⟨2, 3, 2⟩
  , rotation := none }

/-- The furniture entry pushed by `createBench(x, z, rotation)`
(`src/main.js:389-394`): footprint `(benchWidth, benchHeight, benchDepth) =
(4, 1, 1.5)`. -/
def createBenchEntry (x z rot : ℚ) : FurnitureItem :=
  { type := FurnitureType.bench
  , position := ⟨x, 0, z⟩
  , dimensions := ⟨4, 1, 3/2⟩
  , rotation := some rot }

/-- The furniture entry pushed by `createBalloonGroup` (`src/main.js:1154-1159`). -/
def createBalloonEntry (x z : ℚ) : FurnitureItem :=
  { type := FurnitureType.decoration
  , position := ⟨x, 0, z⟩
  , dimensions := ⟨1, 3, 1⟩
  , rotation := some 0 }

/-- The furniture entry pushed by `createGiftBox(x, y, z, width, height, depth, ...)`
(`src/main.js:1297-1308`).  The source sets `group.rotation.y = Math.random() *
Math.PI/2` and stores that value; `randTurn` is the random draw in `[0,1)`
(the rotation in units of `π/2`). -/
def createGiftBoxEntry (x y z width height depth randTurn : ℚ) : FurnitureItem :=
  { type := FurnitureType.decoration
  , position := ⟨x, y + height/2, z⟩
  , dimensions := ⟨width, height, depth⟩
  , rotation := some randTurn }

/-- The complete `furniture` array in creation order: four planters
(`src/main.js:288-291`), two benches (`400-401`), five balloon groups
(`1101-1105`), six gift boxes (`1223-1230`).  The six `gᵢ` are the gift
boxes' random draws (each `Math.random()`, in `[0,1)`). -/
def museumFurniture (g1 g2 g3 g4 g5 g6 : ℚ) : List FurnitureItem :=
  [ createPlanterEntry (-ROOM_WIDTH/2 + 2) (-ROOM_LENGTH/2 + 2)
  , createPlanterEntry (-ROOM_WIDTH/2 + 2) (ROOM_LENGTH/2 - 2)
  , createPlanterEntry (ROOM_WIDTH/2 - 2) (-ROOM_LENGTH/2 + 2)
  , createPlanterEntry (ROOM_WIDTH/2 - 2) (ROOM_LENGTH/2 - 2)
  , createBenchEntry 0 (-ROOM_LENGTH/4) 0
  , createBenchEntry 0 (ROOM_LENGTH/4) 0
  , createBalloonEntry (-ROOM_WIDTH/4) (-ROOM_LENGTH/4)
  , createBalloonEntry (ROOM_WIDTH/4) (-ROOM_LENGTH/4)
  , createBalloonEntry 0 (ROOM_LENGTH/4)
  , createBalloonEntry (-ROOM_WIDTH/3) (ROOM_LENGTH/3)
  , createBalloonEntry (ROOM_WIDTH/3) (ROOM_LENGTH/3)
  , createGiftBoxEntry (-ROOM_WIDTH/3) 0 (-ROOM_LENGTH/3) (8/10) (5/10) (8/10) g1
  , createGiftBoxEntry (ROOM_WIDTH/3) 0 (-ROOM_LENGTH/3) (7/10) (6/10) (7/10) g2
  , createGiftBoxEntry 0 0 (ROOM_LENGTH/3) (9/10) (4/10) (6/10) g3
  , createGiftBoxEntry (-ROOM_WIDTH/2 + 2) 0 (-ROOM_LENGTH/2 + 2) 1 (6/10) (8/10) g4
  , createGiftBoxEntry (-ROOM_WIDTH/2 + 2) (6/10) (-ROOM_LENGTH/2 + 2) (7/10) (4/10) (6/10) g5
  , createGiftBoxEntry (-ROOM_WIDTH/2 + 2) 1 (-ROOM_LENGTH/2 + 2) (5/10) (3/10) (5/10) g6 ]

/-- The intent flags (`moveForward` / `moveBackward` / `moveLeft` /
`moveRight`, `src/main.js:5-8`) consumed by the per-tick movement code. -/
structure Intent where
  moveForward : Bool
  moveBackward : Bool
  moveLeft : Bool
  moveRight : Bool
deriving DecidableEq, Repr

/-- The mutable state the per-tick movement code of `animate`
(`src/main.js:1655-1804`) reads and writes: camera position, horizontal
velocity, and the jump state machine. -/
structure TickState where
  pos : Vec3
  vel : Vec3
  isJumping : Bool
  jumpVelocity : ℚ
  canJump : Bool
deriving DecidableEq, Repr

/-- `direction.x = Number(moveRight) - Number(moveLeft)` (`src/main.js:1749`). -/
def intentDirX (i : Intent) : ℚ :=
  (if i.moveRight then 1 else 0) - (if i.moveLeft then 1 else 0)

/-- `direction.z = Number(moveForward) - Number(moveBackward)` (`src/main.js:1748`). -/
def intentDirZ (i : Intent) : ℚ :=
  (if i.moveForward then 1 else 0) - (if i.moveBackward then 1 else 0)

/-- Characterises `direction.normalize()` (`src/main.js:1750`):
`THREE.Vector3.normalize` divides by the length, or by `1` when the length
is `0`.  For diagonal intent the length is `√2`, irrational, so no rational
pair satisfies this relation there; the tick function below takes the
normalized direction `nd` as an input constrained by this relation. -/
def NormalizedIntentDir (i : Intent) (nd : ℚ × ℚ) : Prop :=
  (intentDirX i = 0 ∧ intentDirZ i = 0 ∧ nd = (0, 0)) ∨
  (∃ len : ℚ, 0 < len ∧ len ^ 2 = intentDirX i ^ 2 + intentDirZ i ^ 2 ∧
    nd = (intentDirX i / len, intentDirZ i / len))

/-- The orientation-aware movement primitives of `PointerLockControls`
(library code): with the camera yaw's sine and cosine `sy`, `cy`,
`controls.moveRight(d)` adds `d·(cy, 0, -sy)` and `controls.moveForward(d)`
adds `d·(-sy, 0, -cy)` to the camera position (pitch does not enter).  This
applies `moveRight dRight` followed by `moveForward dForward`. -/
def movePrimitive (sy cy : ℚ) (pos : Vec3) (dRight dForward : ℚ) : Vec3 :=
  { x := pos.x + dRight * cy - dForward * sy
  , y := pos.y
  , z := pos.z - dRight * sy - dForward * cy }

/-- Velocity damping, `velocity -= velocity * 10.0 * delta` on x and z
(`src/main.js:1659-1660`). -/
def dampVelocity (delta : ℚ) (s : TickState) : TickState :=
  { s with vel := { s.vel with
      x := s.vel.x - s.vel.x * 10 * delta
    , z := s.vel.z - s.vel.z * 10 * delta } }

/-- The bench-landing test of the jump code for one furniture item
(`src/main.js:1672-1697`): a bench whose (rotation-swapped) footprint shrunk
by `0.2` contains the camera horizontally, with the camera height in `(2, 3]`. -/
def BenchLandHere (p : Vec3) (it : FurnitureItem) : Prop :=
  it.type = FurnitureType.bench ∧
  (let dx := p.x - it.position.x
   let dz := p.z - it.position.z
   let xBound := if it.rotation ≠ some 0 then it.dimensions.z / 2 else it.dimensions.x / 2
   let zBound := if it.rotation ≠ some 0 then it.dimensions.x / 2 else it.dimensions.z / 2
   |dx| < xBound - 1/5 ∧ |dz| < zBound - 1/5 ∧ p.y ≤ 3 ∧ p.y > 2)

instance (p : Vec3) (it : FurnitureItem) : Decidable (BenchLandHere p it) := by
  unfold BenchLandHere; infer_instance

/-- The standing-on-bench test of the walking code for one furniture item
(`src/main.js:1715-1738`): same shrunk footprint test, without the height
window (the code runs it only when `camera.position.y > 2`). -/
def BenchStandHere (p : Vec3) (it : FurnitureItem) : Prop :=
  it.type = FurnitureType.bench ∧
  (let dx := p.x - it.position.x
   let dz := p.z - it.position.z
   let xBound := if it.rotation ≠ some 0 then it.dimensions.z / 2 else it.dimensions.x / 2
   let zBound := if it.rotation ≠ some 0 then it.dimensions.x / 2 else it.dimensions.z / 2
   |dx| < xBound - 1/5 ∧ |dz| < zBound - 1/5)

instance (p : Vec3) (it : FurnitureItem) : Decidable (BenchStandHere p it) := by
  unfold BenchStandHere; infer_instance

/-- The jump / gravity state machine of the tick (`src/main.js:1663-1746`).
The source's landing and standing loops `break` at the first matching bench;
the effect does not depend on which bench matched, so the embedding uses the
corresponding existence tests. -/
def jumpPhase (furniture : List FurnitureItem) (delta : ℚ) (s : TickState) : TickState :=
  if s.isJumping then
    let jv := s.jumpVelocity + GRAVITY * delta
    let pos1 : Vec3 := { s.pos with y := s.pos.y + jv * delta }
    if jv < 0 ∧ ∃ it ∈ furniture, BenchLandHere pos1 it then
      { s with pos := { pos1 with y := 3 }, isJumping := false, canJump := true, jumpVelocity := 0 }
    else if pos1.y ≤ 2 then
      { s with pos := { pos1 with y := 2 }, isJumping := false, canJump := true, jumpVelocity := 0 }
    else
      { s with pos := pos1, jumpVelocity := jv }
  else if s.pos.y > 2 then
    if ∃ it ∈ furniture, BenchStandHere s.pos it then s
    else { s with isJumping := true, jumpVelocity := 0 }
  else s

/-- The horizontal movement of the tick (`src/main.js:1748-1804`): build
the candidate `newPosition` from the normalized intent direction `nd`,
test it against the wall-inset box and `checkFurnitureCollision`, and
either commit the move through the `controls` primitives (integrating
velocity first) or attempt per-axis sliding.  `sy`, `cy` are the camera
yaw's sine and cosine (used only by the movement primitives). -/
def movePhase (furniture : List FurnitureItem) (sy cy : ℚ) (nd : ℚ × ℚ)
    (i : Intent) (delta : ℚ) (s : TickState) : TickState :=
  let speed : ℚ := 50
  let npz := if i.moveForward ∨ i.moveBackward then s.pos.z - nd.2 * speed * delta else s.pos.z
  let npx := if i.moveLeft ∨ i.moveRight then s.pos.x - nd.1 * speed * delta else s.pos.x
  let newPosition : Vec3 := ⟨npx, s.pos.y, npz⟩
  let hasWallCollision : Prop :=
    newPosition.x < -ROOM_WIDTH/2 + 1 ∨ newPosition.x > ROOM_WIDTH/2 - 1 ∨
    newPosition.z < -ROOM_LENGTH/2 + 1 ∨ newPosition.z > ROOM_LENGTH/2 - 1
  if ¬hasWallCollision ∧ checkFurnitureCollision furniture newPosition = false then
    let vz := if i.moveForward ∨ i.moveBackward then s.vel.z - nd.2 * speed * delta else s.vel.z
    let vx := if i.moveLeft ∨ i.moveRight then s.vel.x - nd.1 * speed * delta else s.vel.x
    { s with vel := { s.vel with x := vx, z := vz }
           , pos := movePrimitive sy cy s.pos (-vx * delta) (-vz * delta) }
  else
    let slidePositionX : Vec3 := ⟨newPosition.x, s.pos.y, s.pos.z⟩
    let slidePositionZ : Vec3 := ⟨s.pos.x, s.pos.y, newPosition.z⟩
    let posA :=
      if (i.moveForward ∨ i.moveBackward) ∧ checkFurnitureCollision furniture slidePositionX = false ∧
         slidePositionX.x ≥ -ROOM_WIDTH/2 + 1 ∧ slidePositionX.x ≤ ROOM_WIDTH/2 - 1 then
        movePrimitive sy cy s.pos (-s.vel.x * delta) 0
      else s.pos
    let posB :=
      if (i.moveLeft ∨ i.moveRight) ∧ checkFurnitureCollision furniture slidePositionZ = false ∧
         slidePositionZ.z ≥ -ROOM_LENGTH/2 + 1 ∧ slidePositionZ.z ≤ ROOM_LENGTH/2 - 1 then
        movePrimitive sy cy posA 0 (-s.vel.z * delta)
      else posA
    { s with pos := posB }

/-- One movement tick of `animate` (`src/main.js:1655-1804`), i.e. the body
of the `controls.isLocked && !isZooming` branch: damp the velocity, run the
jump / gravity state machine, then the horizontal movement. -/
def moveTick (furniture : List FurnitureItem) (sy cy : ℚ) (nd : ℚ × ℚ)
    (i : Intent) (delta : ℚ) (s : TickState) : TickState :=
  movePhase furniture sy cy nd i delta (jumpPhase furniture delta (dampVelocity delta s))

/-- Camera orientation, embedding the `THREE.Euler` stored and restored by the
zoom code (`camera.rotation`); only copied around, never computed on. -/
structure Euler where
  pitch : ℚ
  yaw : ℚ
  roll : ℚ
deriving DecidableEq, Repr

/-- The data of one loaded artwork as used by `zoomToArtwork`
(`src/main.js:1434-1484`): the group position, the group quaternion embedded
as the sine and cosine of its yaw (all artworks are placed with pure yaw
rotations, `src/main.js:512-529`), the dimensions, and the info strings. -/
structure ZoomArt where
  pos : Vec3
  sinYaw : ℚ
  cosYaw : ℚ
  width : ℚ
  height : ℚ
  title : String
  descr : String
deriving DecidableEq, Repr

/-- The global state read and written by the focus (zoom) controller, the
bounds watchdog and the emergency reset: camera pose, zoom flag, saved pose
(`originalCameraPosition` / `originalCameraRotation`, `null` embedded as
`none`), the artwork-info overlay, pointer-lock state, and the movement
globals `velocity`, `direction` and the intent flags. -/
structure MuseumState where
  camPos : Vec3
  camRot : Euler
  isZooming : Bool
  origPos : Option Vec3
  origRot : Option Euler
  infoVisible : Bool
  infoTitle : String
  infoDesc : String
  controlsLocked : Bool
  velocity : Vec3
  direction : Vec3
  moveForward : Bool
  moveBackward : Bool
  moveLeft : Bool
  moveRight : Bool
deriving DecidableEq, Repr

/-- `zoomToArtwork(artwork)` (`src/main.js:1434-1484`).  Returns the state
unchanged when already zooming (`if (isZooming) return`).  Otherwise saves
the camera pose, computes the viewing position in front of the artwork
(the offset `(0,0,viewingDistance)` rotated by the artwork's yaw quaternion
is `(d·sinYaw, 0, d·cosYaw)`), clamps it into the room inset by `1.5` and
fixes the eye height, moves the camera there, orients it at the artwork
(`camera.lookAt`, a library call whose resulting Euler is taken as the
input `lookRot`), and shows the info overlay. -/
def zoomToArtwork (lookRot : Euler) (art : ZoomArt) (s : MuseumState) : MuseumState :=
  if s.isZooming then s
  else
    let viewingDistance := max (3/2) (max art.width art.height * (8/10))
    let offset : Vec3 := ⟨viewingDistance * art.sinYaw, 0, viewingDistance * art.cosYaw⟩
    let tx := max (-ROOM_WIDTH/2 + 3/2) (min (ROOM_WIDTH/2 - 3/2) (art.pos.x - offset.x))
    let tz := max (-ROOM_LENGTH/2 + 3/2) (min (ROOM_LENGTH/2 - 3/2) (art.pos.z - offset.z))
    let targetPosition : Vec3 := ⟨tx, ROOM_HEIGHT/2 - 1, tz⟩
    { s with
      origPos := some s.camPos
    , origRot := some s.camRot
    , isZooming := true
    , controlsLocked := false
    , camPos := targetPosition
    , camRot := lookRot
    , infoVisible := true
    , infoTitle := art.title
    , infoDesc := art.descr }

/-- The five fallback points of `resetZoom` (`src/main.js:1511-1517`):
room center, left, right, back, front. -/
def safePositions : List Vec3 :=
  [ ⟨0, 2, 0⟩
  , ⟨-ROOM_WIDTH/4, 2, 0⟩
  , ⟨ROOM_WIDTH/4, 2, 0⟩
  , ⟨0, 2, -ROOM_LENGTH/4⟩
  , ⟨0, 2, ROOM_LENGTH/4⟩ ]

/-- Squared distance between two points; `Vector3.distanceTo` is used by the
source only in `<` comparisons between distances, which squaring preserves. -/
def dist2 (a b : Vec3) : ℚ :=
  (a.x - b.x)^2 + (a.y - b.y)^2 + (a.z - b.z)^2

/-- The fallback-point search of `resetZoom` (`src/main.js:1519-1531`):
start from `safePositions[0]` (whose own collision status is never tested)
and scan the rest, keeping any strictly closer point that is collision-free. -/
def findSafePosition (furniture : List FurnitureItem) (validPosition : Vec3) : Vec3 :=
  (safePositions.tail.foldl
    (fun (acc : Vec3 × ℚ) sp =>
      if dist2 validPosition sp < acc.2 ∧ checkFurnitureCollision furniture sp = false then
        (sp, dist2 validPosition sp)
      else acc)
    (safePositions.head!, dist2 validPosition safePositions.head!)).1

/-- `resetZoom()` (`src/main.js:1486-1555`), parameterised by the furniture
array: when a saved pose exists, clamp it into the room inset by `1` with
height floored at `2`, and if that position collides with furniture
substitute the fallback point; when no saved pose exists use `(0,2,0)`.
Move the camera there, restore the saved rotation when present, clear the
zoom flag and saved pose, lock the controls, hide the overlay. -/
def resetZoom (furniture : List FurnitureItem) (s : MuseumState) : MuseumState :=
  let validPosition : Vec3 :=
    match s.origPos, s.origRot with
    | some op, some _ =>
      let vx := max (-ROOM_WIDTH/2 + 1) (min (ROOM_WIDTH/2 - 1) op.x)
      let vz := max (-ROOM_LENGTH/2 + 1) (min (ROOM_LENGTH/2 - 1) op.z)
      let v : Vec3 := ⟨vx, max 2 op.y, vz⟩
      if checkFurnitureCollision furniture v then findSafePosition furniture v else v
    | _, _ => ⟨0, 2, 0⟩
  { s with
    camPos := validPosition
  , camRot := (match s.origRot with
      | some r => r
      | none => s.camRot)
  , isZooming := false
  , controlsLocked := true
  , infoVisible := false
  , origPos := none
  , origRot := none }

/-- `emergencyReset()` (`src/main.js:1615-1639`): exit zoom if active, snap
the camera to `(0,2,0)`, zero `velocity` and `direction`, clear the intent
flags, and ensure the controls are locked. -/
def emergencyReset (furniture : List FurnitureItem) (s : MuseumState) : MuseumState :=
  let s1 := if s.isZooming then resetZoom furniture s else s
  { s1 with
    camPos := ⟨0, 2, 0⟩
  , velocity := ⟨0, 0, 0⟩
  , direction := ⟨0, 0, 0⟩
  , moveForward := false
  , moveBackward := false
  , moveLeft := false
  , moveRight := false
  , controlsLocked := true }

/-- The bounds-watchdog trigger at the top of `animate` (`src/main.js:1645-1649`):
`!isZooming && camera.position.y < 0 || camera.position.x < -ROOM_WIDTH/2 - 5
|| camera.position.x > ROOM_WIDTH/2 + 5 || camera.position.z < -ROOM_LENGTH/2 - 5
|| camera.position.z > ROOM_LENGTH/2 + 5` — in JavaScript `&&` binds tighter
than `||`, so only the height clause is guarded by `!isZooming`. -/
def WatchdogFires (isZooming : Bool) (p : Vec3) : Prop :=
  (isZooming = false ∧ p.y < 0) ∨
  p.x < -ROOM_WIDTH/2 - 5 ∨ p.x > ROOM_WIDTH/2 + 5 ∨
  p.z < -ROOM_LENGTH/2 - 5 ∨ p.z > ROOM_LENGTH/2 + 5

instance (b : Bool) (p : Vec3) : Decidable (WatchdogFires b p) := by
  unfold WatchdogFires; infer_instance

/-- The watchdog step of `animate` (`src/main.js:1644-1652`): run
`emergencyReset` when the trigger fires, otherwise leave the state alone. -/
def animateWatchdog (furniture : List FurnitureItem) (s : MuseumState) : MuseumState :=
  if WatchdogFires s.isZooming s.camPos then emergencyReset furniture s else s

/-- The per-artwork data consumed by `findNearestArtwork`
(`src/main.js:1317-1361`): the stored `width` / `height` (absent, i.e.
`undefined`, until the texture-load callback has run), together with the
two camera-relative library quantities the scan uses — `distance`
(`cameraPosition.distanceTo(artworkPosition)`) and the angle between the
camera direction and the direction to the artwork.  The angle enters the
code only as `angle < Math.PI/4 * (...)` and `(1 - angle/Math.PI)`, so it
is embedded as `angleFrac = angle / π ∈ [0,1]`, in which both uses are
exactly expressible. -/
structure ArtView where
  width : Option ℚ
  height : Option ℚ
  distance : ℚ
  angleFrac : ℚ
deriving DecidableEq, Repr

/-- `maxDistance = Math.max(10, Math.max(width, height) * 3)`
(`src/main.js:1336-1337`). -/
def artMaxDistance (w h : ℚ) : ℚ := max 10 (max w h * 3)

/-- `sizeAdjustedAngleThreshold = Math.PI/4 * (1 + Math.min(width, height)/5)`
(`src/main.js:1344`), divided by `π` (the units of `angleFrac`). -/
def artAngleThresholdFrac (w h : ℚ) : ℚ := 1/4 * (1 + min w h / 5)

/-- `score = (1 - angle/Math.PI) * 10 + (maxDistance - distance) + artworkSize`
(`src/main.js:1349-1350`). -/
def artScoreVal (w h dist angleFrac : ℚ) : ℚ :=
  (1 - angleFrac) * 10 + (artMaxDistance w h - dist) + max w h

/-- The body of the `artworks.forEach` scan of `findNearestArtwork`
(`src/main.js:1325-1358`) acting on the accumulator
`(nearestArtwork, bestScore)`; `none` embeds the initial
`nearestArtwork = null, bestScore = -Infinity` (every real score exceeds
`-Infinity`, hence the first candidate always replaces `none`). -/
def scanArt (best : Option (ArtView × ℚ)) (a : ArtView) : Option (ArtView × ℚ) :=
  match a.width, a.height with
  | some w, some h =>
    if a.distance < artMaxDistance w h then
      if a.angleFrac < artAngleThresholdFrac w h then
        let score := artScoreVal w h a.distance a.angleFrac
        match best with
        | none => some (a, score)
        | some (b, bestScore) => if score > bestScore then some (a, score) else some (b, bestScore)
      else best
    else best
  | _, _ => best

/-- `findNearestArtwork()` (`src/main.js:1317-1361`) over the embedded
per-artwork view data, in registry order. -/
def findNearestArtwork (artworks : List ArtView) : Option ArtView :=
  (artworks.foldl scanArt none).map Prod.fst

/-- The skip guard of the scan (`src/main.js:1327`):
`artwork.width === undefined || artwork.height === undefined`. -/
def unloadedSkip (a : ArtView) : Bool :=
  a.width.isNone || a.height.isNone

/-- An artwork is a candidate when the scan does not skip it: loaded, within
the size-adjusted distance, and within the size-adjusted angle. -/
def qualifies (a : ArtView) : Bool :=
  match a.width, a.height with
  | some w, some h =>
    decide (a.distance < artMaxDistance w h ∧ a.angleFrac < artAngleThresholdFrac w h)
  | _, _ => false

/-- The score the scan assigns to a candidate (`0` as a dummy for
non-candidates, which never enter the accumulator). -/
def scoreOf (a : ArtView) : ℚ :=
  match a.width, a.height with
  | some w, some h => artScoreVal w h a.distance a.angleFrac
  | _, _ => 0

/-- One entry of the `artworks` registry as pushed by the texture-load
callback (`src/main.js:582-591`), restricted to the fields the claims are
about; `Option` embeds JS fields that could in principle be `undefined`. -/
structure ArtEntry where
  width : Option ℚ
  height : Option ℚ
  title : Option String
  descr : Option String
deriving DecidableEq, Repr

/-- The `artworkInfo` table (`src/main.js:462-507`): eleven
title/description pairs. -/
def artworkInfo : List (String × String) :=
  [ ("3-1-25", "We are going to rezz every time.")
  , ("10-19-24", "Your laugh is my favorite sound in the world. I fall more in love with you every day.")
  , ("10-12-24", "First rave togetherrrrr. I love you happy birthday sweet 21.")
  , ("9-23-24", "Are you a high-resolution camera? Because every time I see you, you make my world ultra HD.")
  , ("10-26-24", "Are you Remy? Because you\x27ve taken control of my heart just like you took control of Linguini!")
  , ("12-31-24", "Miles of road, music playing, and your hand in mine. I\x27d drive anywhere as long as you\x27re by my side.")
  , ("2-14-25", "Your cuddles are the best part of my day.")
  , ("8-11-24", "Are you a squat rack? Because I can\x27t resist getting under you.")
  , ("idk the date", "Sunshine, sandwiches, and your sweet kisses. Simple joys become treasures when I\x27m with you. You\x27re the cherry on top of my life.")
  , ("10-13-24", "Are you my remedy? Because in the chaos of life, you\x27re the clarity that keeps me sane.")
  , ("2-14-25", "Thank you for sharing your heart with me. I promise to cherish it always. Forever yours.") ]

/-- The number of entries of `imagePaths` (`src/main.js:447-459`): eleven
image files, one artwork each. -/
def imagePathsLength : Nat := 11

/-- The registry entry the load callback pushes for image `index`
(`src/main.js:582-591`): the `width` and `height` computed from the loaded
image (taken as inputs `w`, `h` here) and `artworkInfo[index].title` /
`.description`.  Every field of the pushed object literal is set. -/
def pushArtworkEntry (index : Nat) (w h : ℚ) : ArtEntry :=
  { width := some w
  , height := some h
  , title := (artworkInfo.get? index).map Prod.fst
  , descr := (artworkInfo.get? index).map Prod.snd }

/-- The `artworks` registry once every texture-load callback has completed:
one pushed entry per image index, with `dims i` the per-image computed
artwork dimensions.  (Entries are appended asynchronously, but each is
complete at its own insertion; the claims quantify over the entries, not
their order.) -/
def artworksAfterLoad (dims : Nat → ℚ × ℚ) : List ArtEntry :=
  (List.range imagePathsLength).map (fun i => pushArtworkEntry i (dims i).1 (dims i).2)

/-- Proof infrastructure: the effect of one scan step as a binary combine of
the accumulator with the candidate's contribution (`entryOf`); used to reason
about `findNearestArtwork` by associativity. -/
def scanStep (best e : Option (ArtView × ℚ)) : Option (ArtView × ℚ) :=
  match best, e with
  | b, none => b
  | none, some p => some p
  | some (b, sb), some (a, sa) => if sa > sb then some (a, sa) else some (b, sb)

/-- Proof infrastructure: the contribution of one artwork to the scan. -/
def entryOf (a : ArtView) : Option (ArtView × ℚ) :=
  if qualifies a then some (a, scoreOf a) else none

/-- The orientation classes named by the claims: axis-aligned or rotated by
a multiple of 90 degrees.  Rotations are stored in units of `π/2`, so the
class is exactly the integer values (with `none` meaning the entry carries
no rotation at all). -/
def RightAngleClass (r : Option ℚ) : Prop := ∃ k : ℤ, r = some (k : ℚ)

lemma scanStep_none_right (b : Option (ArtView × ℚ)) : scanStep b none = b := by
  cases b <;> rfl

lemma scanStep_none_left (e : Option (ArtView × ℚ)) : scanStep none e = e := by
  rcases e with _ | ⟨a, sa⟩ <;> rfl

lemma scanStep_some_some (b a : ArtView) (sb sa : ℚ) :
    scanStep (some (b, sb)) (some (a, sa)) = if sa > sb then some (a, sa) else some (b, sb) := rfl

lemma scanArt_eq_scanStep (acc : Option (ArtView × ℚ)) (a : ArtView) :
    scanArt acc a = scanStep acc (entryOf a) := by
  rcases a with ⟨w, h, d, f⟩
  rcases w with _ | w
  · simp [scanArt, entryOf, qualifies, scanStep_none_right]
  rcases h with _ | h
  · simp [scanArt, entryOf, qualifies, scanStep_none_right]
  by_cases h1 : d < artMaxDistance w h
  · by_cases h2 : f < artAngleThresholdFrac w h
    · rcases acc with _ | ⟨b, sb⟩ <;>
        simp [scanArt, entryOf, qualifies, scoreOf, h1, h2, scanStep_none_left, scanStep_some_some]
    · simp [scanArt, entryOf, qualifies, h1, h2, scanStep_none_right]
  · simp [scanArt, entryOf, qualifies, h1, scanStep_none_right]

lemma scanStep_assoc (x y z : Option (ArtView × ℚ)) :
    scanStep (scanStep x y) z = scanStep x (scanStep y z) := by
  rcases x with _ | ⟨a, sa⟩
  · rw [scanStep_none_left, scanStep_none_left]
  rcases y with _ | ⟨b, sb⟩
  · rw [scanStep_none_right, scanStep_none_left]
  rcases z with _ | ⟨c, sc⟩
  · rw [scanStep_none_right, scanStep_none_right]
  rw [scanStep_some_some]
  by_cases h1 : sb > sa
  · rw [if_pos h1, scanStep_some_some]
    by_cases h2 : sc > sb
    · rw [if_pos h2, scanStep_some_some, if_pos (lt_trans h1 h2)]
    · rw [if_neg h2, scanStep_some_some, if_pos h1]
  · rw [if_neg h1, scanStep_some_some, scanStep_some_some]
    by_cases h2 : sc > sb
    · rw [if_pos h2, scanStep_some_some]
    · rw [if_neg h2, scanStep_some_some, if_neg (by linarith : ¬ sc > sa), if_neg h1]

lemma foldl_scanArt_acc (l : List ArtView) (acc : Option (ArtView × ℚ)) :
    l.foldl scanArt acc = scanStep acc (l.foldl scanArt none) := by
  induction l generalizing acc with
  | nil => simp [List.foldl, scanStep_none_right]
  | cons a l ih =>
    simp only [List.foldl]
    rw [ih (scanArt acc a), ih (scanArt none a), scanArt_eq_scanStep,
      scanArt_eq_scanStep, scanStep_none_left, scanStep_assoc]

lemma selAux_cons (a : ArtView) (l : List ArtView) :
    (a :: l).foldl scanArt none = scanStep (entryOf a) (l.foldl scanArt none) := by
  simp only [List.foldl]
  rw [foldl_scanArt_acc, scanArt_eq_scanStep, scanStep_none_left]

lemma entryOf_eq_none_iff (a : ArtView) : entryOf a = none ↔ qualifies a = false := by
  unfold entryOf
  by_cases hq : qualifies a <;> simp [hq]

lemma selAux_none_iff (l : List ArtView) :
    l.foldl scanArt none = none ↔ ∀ a ∈ l, qualifies a = false := by
  induction l with
  | nil => simp [List.foldl]
  | cons a l ih =>
    rw [selAux_cons]
    constructor
    · intro h
      have he : entryOf a = none := by
        rcases hE : entryOf a with _ | p
        · rfl
        · rw [hE] at h
          rcases hM : l.foldl scanArt none with _ | ⟨b, sb⟩ <;> rw [hM] at h
          · rcases p with ⟨x, sx⟩
            simp [scanStep_none_right] at h
          · rcases p with ⟨x, sx⟩
            rw [scanStep_some_some] at h
            by_cases hc : sb > sx <;> simp [hc] at h
      have hm : l.foldl scanArt none = none := by
        rw [he, scanStep_none_left] at h
        exact h
      intro b hb
      rcases List.mem_cons.mp hb with rfl | hb
      · exact (entryOf_eq_none_iff b).mp he
      · exact (ih.mp hm) b hb
    · intro h
      have he : entryOf a = none :=
        (entryOf_eq_none_iff a).mpr (h a (List.mem_cons_self a l))
      have hm : l.foldl scanArt none = none :=
        ih.mpr (fun b hb => h b (List.mem_cons_of_mem a hb))
      rw [he, hm, scanStep_none_left]

lemma selAux_some_spec (l : List ArtView) (r : ArtView) (s : ℚ)
    (h : l.foldl scanArt none = some (r, s)) :
    qualifies r = true ∧ s = scoreOf r ∧ r ∈ l ∧
      ∀ b ∈ l, qualifies b = true → scoreOf b ≤ s := by
  induction l generalizing r s with
  | nil => simp [List.foldl] at h
  | cons a l ih =>
    rw [selAux_cons] at h
    by_cases hq : qualifies a
    · rw [entryOf, if_pos hq] at h
      rcases hM : l.foldl scanArt none with _ | ⟨b, sb⟩ <;> rw [hM] at h
      · rw [scanStep_none_right] at h
        cases h
        refine ⟨hq, rfl, List.mem_cons_self a l, ?_⟩
        intro c hc' hqc
        rcases List.mem_cons.mp hc' with rfl | hmem
        · exact le_refl _
        · exact absurd hqc (by simp [(selAux_none_iff l).mp hM c hmem])
      · obtain ⟨hqb, hsb, hbmem, hbound⟩ := ih b sb hM
        rw [scanStep_some_some] at h
        by_cases hcmp : sb > scoreOf a
        · rw [if_pos hcmp] at h
          cases h
          refine ⟨hqb, hsb, List.mem_cons_of_mem a hbmem, ?_⟩
          intro c hc' hqc
          rcases List.mem_cons.mp hc' with rfl | hmem
          · exact le_of_lt hcmp
          · exact hbound c hmem hqc
        · rw [if_neg hcmp] at h
          cases h
          refine ⟨hq, rfl, List.mem_cons_self a l, ?_⟩
          intro c hc' hqc
          rcases List.mem_cons.mp hc' with rfl | hmem
          · exact le_refl _
          · exact le_trans (hbound c hmem hqc) (not_lt.mp hcmp)
    · rw [entryOf, if_neg hq, scanStep_none_left] at h
      obtain ⟨h1, h2, h3, h4⟩ := ih r s h
      refine ⟨h1, h2, List.mem_cons_of_mem a h3, ?_⟩
      intro c hc' hqc
      rcases List.mem_cons.mp hc' with rfl | hmem
      · exact absurd hqc hq
      · exact h4 c hmem hqc

lemma selAux_head_max (a : ArtView) (l : List ArtView)
    (hq : qualifies a = true) (hmax : ∀ b ∈ l, qualifies b = true → scoreOf b ≤ scoreOf a) :
    (a :: l).foldl scanArt none = some (a, scoreOf a) := by
  rw [selAux_cons, entryOf, if_pos hq]
  rcases hM : l.foldl scanArt none with _ | ⟨b, sb⟩
  · rw [scanStep_none_right]
  · obtain ⟨hqb, hsb, hbmem, _⟩ := selAux_some_spec l b sb hM
    rw [scanStep_some_some,
      if_neg (by rw [hsb]; exact not_lt.mpr (hmax b hbmem hqb))]

lemma zoomToArtwork_of_isZooming (lookRot : Euler) (art : ZoomArt) (s : MuseumState)
    (h : s.isZooming = true) : zoomToArtwork lookRot art s = s := by
  rw [zoomToArtwork, if_pos h]

lemma scanArt_of_unloadedSkip (acc : Option (ArtView × ℚ)) (a : ArtView)
    (h : unloadedSkip a = true) : scanArt acc a = acc := by
  rcases a with ⟨w, h', d, f⟩
  rcases w with _ | w <;> rcases h' with _ | h' <;>
    simp_all [unloadedSkip, scanArt]

lemma itemCheck_congr (p : Vec3) (a b : FurnitureItem)
    (ht : a.type = b.type) (hp : a.position = b.position)
    (hd : a.dimensions = b.dimensions) (hr : rotSwapFlag a ↔ rotSwapFlag b) :
    itemCheck p a = itemCheck p b := by
  unfold itemCheck
  rw [ht, hp, hd, if_congr hr rfl rfl, if_congr hr rfl rfl]

lemma checkFurnitureCollision_congr (p : Vec3) (l1 l2 : List FurnitureItem)
    (h : List.Forall₂ (fun a b : FurnitureItem =>
      a.type = b.type ∧ a.position = b.position ∧ a.dimensions = b.dimensions ∧
      (rotSwapFlag a ↔ rotSwapFlag b)) l1 l2) :
    checkFurnitureCollision l1 p = checkFurnitureCollision l2 p := by
  induction h with
  | nil => rfl
  | cons hab _ ih =>
    obtain ⟨ht, hp, hd, hr⟩ := hab
    simp only [checkFurnitureCollision]
    rw [itemCheck_congr p _ _ ht hp hd hr, ih]

/-- C2: for a single bench at the origin with footprint `(4,1,1.5)` and
rotation `0`, `checkFurnitureCollision` is: blocked at `(0, 1, 0.5)`
(normal walking height inside the footprint); not blocked at `(0, 4.5, 0.5)`
(jump-over); not blocked at `(1.9, 3, 0.6)`; and — against the claim, which
expects the bench-top edge to block — ALSO not blocked at `(1.95, 3, 0.7)`:
the jump-over branch `playerHeight > benchTotalHeight + 1.0` (i.e. `> 2`)
fires at height `3`, so the source's "Case 2: standing on the bench" edge
logic is unreachable. -/
theorem bench_collision_cases_eval :
    checkFurnitureCollision [createBenchEntry 0 0 0] ⟨0, 1, 1/2⟩ = true ∧
    checkFurnitureCollision [createBenchEntry 0 0 0] ⟨0, 9/2, 1/2⟩ = false ∧
    checkFurnitureCollision [createBenchEntry 0 0 0] ⟨19/10, 3, 6/10⟩ = false ∧
    checkFurnitureCollision [createBenchEntry 0 0 0] ⟨39/20, 3, 7/10⟩ = false := by
  refine ⟨?_, ?_, ?_, ?_⟩ <;>
    norm_num [checkFurnitureCollision, itemCheck, createBenchEntry, rotSwapFlag,
      benchTotalHeight, abs_lt]

/-- C6: for a non-bench furniture item, `checkFurnitureCollision` reports the
item as blocking iff the horizontal-overlap condition
`|dx| < halfWidth + 0.3 ∧ |dz| < halfDepth + 0.3` holds, and the result is
independent of the camera height. -/
theorem nonbench_collision_iff_overlap : ∀ (it : FurnitureItem) (p : Vec3),
    it.type ≠ FurnitureType.bench →
    (checkFurnitureCollision [it] p = true ↔
      |p.x - it.position.x| < it.dimensions.x / 2 + 3/10 ∧
      |p.z - it.position.z| < it.dimensions.z / 2 + 3/10) ∧
    ∀ y1 y2 : ℚ, checkFurnitureCollision [it] ⟨p.x, y1, p.z⟩ =
      checkFurnitureCollision [it] ⟨p.x, y2, p.z⟩ := by
  intro it p ht
  have hflag : ¬ rotSwapFlag it := fun hc => ht hc.1
  constructor
  · by_cases hov : |p.x - it.position.x| < it.dimensions.x / 2 + 3/10 ∧
        |p.z - it.position.z| < it.dimensions.z / 2 + 3/10 <;>
      simp [checkFurnitureCollision, itemCheck, hflag, ht, hov]
  · intro y1 y2
    by_cases hov : |p.x - it.position.x| < it.dimensions.x / 2 + 3/10 ∧
        |p.z - it.position.z| < it.dimensions.z / 2 + 3/10 <;>
      simp [checkFurnitureCollision, itemCheck, hflag, ht, hov]

/-- Witness for C6: a planter (non-bench) at `(23,13)` blocks the position
`(22, 2, 13)`, which lies inside its footprint plus margin. -/
theorem nonbench_collision_iff_overlap_witness :
    (createPlanterEntry 23 13).type ≠ FurnitureType.bench ∧
    checkFurnitureCollision [createPlanterEntry 23 13] ⟨22, 2, 13⟩ = true := by
  refine ⟨by decide, ?_⟩
  exact ((nonbench_collision_iff_overlap (createPlanterEntry 23 13) ⟨22, 2, 13⟩
    (by decide)).1).mpr (by norm_num [createPlanterEntry, abs_lt])

/-- C7: requesting focus entry while a session is already active is a no-op
(the whole state is unchanged), and hence a second `zoomToArtwork` right
after a first one has no additional effect. -/
theorem zoomToArtwork_idempotent : ∀ (r1 r2 : Euler) (a1 a2 : ZoomArt) (s : MuseumState),
    (s.isZooming = true → zoomToArtwork r1 a1 s = s) ∧
    (s.isZooming = false →
      zoomToArtwork r2 a2 (zoomToArtwork r1 a1 s) = zoomToArtwork r1 a1 s) := by
  intro r1 r2 a1 a2 s
  refine ⟨zoomToArtwork_of_isZooming r1 a1 s, ?_⟩
  intro h
  apply zoomToArtwork_of_isZooming
  rw [zoomToArtwork, if_neg (by simp [h])]

/-- Witness for C7: a concrete already-zooming state is left unchanged by a
focus request. -/
theorem zoomToArtwork_idempotent_witness :
    zoomToArtwork ⟨0, 0, 0⟩ ⟨⟨0, 3, 0⟩, 0, 1, 4, 3, "t", "d"⟩
      { camPos := ⟨1, 2, 1⟩, camRot := ⟨0, 0, 0⟩, isZooming := true
      , origPos := some ⟨1, 2, 1⟩, origRot := some ⟨0, 0, 0⟩, infoVisible := true
      , infoTitle := "t", infoDesc := "d", controlsLocked := false
      , velocity := ⟨0, 0, 0⟩, direction := ⟨0, 0, 0⟩
      , moveForward := false, moveBackward := false
      , moveLeft := false, moveRight := false } =
      { camPos := ⟨1, 2, 1⟩, camRot := ⟨0, 0, 0⟩, isZooming := true
      , origPos := some ⟨1, 2, 1⟩, origRot := some ⟨0, 0, 0⟩, infoVisible := true
      , infoTitle := "t", infoDesc := "d", controlsLocked := false
      , velocity := ⟨0, 0, 0⟩, direction := ⟨0, 0, 0⟩
      , moveForward := false, moveBackward := false
      , moveLeft := false, moveRight := false } :=
  (zoomToArtwork_idempotent ⟨0, 0, 0⟩ ⟨0, 0, 0⟩ ⟨⟨0, 3, 0⟩, 0, 1, 4, 3, "t", "d"⟩
    ⟨⟨0, 3, 0⟩, 0, 1, 4, 3, "t", "d"⟩ _).1 rfl

/-- Counterexample for C8: invoking `resetZoom` with no focus session active
(no saved pose) is not a pose no-op — it moves the camera from `(5,2,5)` to
the default `(0,2,0)`. -/
theorem resetZoom_inactive_moves_camera :
    (resetZoom []
      { camPos := ⟨5, 2, 5⟩, camRot := ⟨0, 0, 0⟩, isZooming := false
      , origPos := none, origRot := none, infoVisible := false
      , infoTitle := "", infoDesc := "", controlsLocked := true
      , velocity := ⟨0, 0, 0⟩, direction := ⟨0, 0, 0⟩
      , moveForward := false, moveBackward := false
      , moveLeft := false, moveRight := false }).camPos = ⟨0, 2, 0⟩ ∧
    (⟨0, 2, 0⟩ : Vec3) ≠ ⟨5, 2, 5⟩ := by
  refine ⟨?_, by decide⟩
  simp [resetZoom]

/-- C8 (amended): invoking `resetZoom` while no focus session is active
(zoom flag false, no saved pose) sets the camera position to the default
reset point `(0,2,0)`, leaves the camera orientation unchanged, and leaves
the zoom flag cleared with the overlay hidden. -/
theorem resetZoom_inactive_amended : ∀ (furn : List FurnitureItem) (s : MuseumState),
    s.isZooming = false → s.origPos = none → s.origRot = none →
    (resetZoom furn s).camPos = ⟨0, 2, 0⟩ ∧
    (resetZoom furn s).camRot = s.camRot ∧
    (resetZoom furn s).isZooming = false ∧
    (resetZoom furn s).infoVisible = false := by
  intro furn s _ h1 h2
  simp [resetZoom, h1, h2]

/-- Witness for C8: the amended behaviour at a concrete inactive state. -/
theorem resetZoom_inactive_amended_witness :
    (resetZoom []
      { camPos := ⟨7, 2, 3⟩, camRot := ⟨1, 2, 3⟩, isZooming := false
      , origPos := none, origRot := none, infoVisible := false
      , infoTitle := "", infoDesc := "", controlsLocked := true
      , velocity := ⟨0, 0, 0⟩, direction := ⟨0, 0, 0⟩
      , moveForward := false, moveBackward := false
      , moveLeft := false, moveRight := false }).camPos = ⟨0, 2, 0⟩ ∧
    (resetZoom []
      { camPos := ⟨7, 2, 3⟩, camRot := ⟨1, 2, 3⟩, isZooming := false
      , origPos := none, origRot := none, infoVisible := false
      , infoTitle := "", infoDesc := "", controlsLocked := true
      , velocity := ⟨0, 0, 0⟩, direction := ⟨0, 0, 0⟩
      , moveForward := false, moveBackward := false
      , moveLeft := false, moveRight := false }).camRot = ⟨1, 2, 3⟩ := by
  have h := resetZoom_inactive_amended []
    { camPos := ⟨7, 2, 3⟩, camRot := ⟨1, 2, 3⟩, isZooming := false
    , origPos := none, origRot := none, infoVisible := false
    , infoTitle := "", infoDesc := "", controlsLocked := true
    , velocity := ⟨0, 0, 0⟩, direction := ⟨0, 0, 0⟩
    , moveForward := false, moveBackward := false
    , moveLeft := false, moveRight := false } rfl rfl rfl
  exact ⟨h.1, h.2.1⟩

/-- Counterexample for C3: the watchdog trigger is NOT exempted while
focused for the horizontal clauses — in JS `&&` binds tighter than `||`, so
only the `y < 0` clause is guarded by `!isZooming`.  With the zoom flag set
and the camera at `x = 31 > ROOM_WIDTH/2 + 5`, the watchdog fires and the
emergency reset snaps the camera to `(0,2,0)`. -/
theorem watchdog_fires_while_zooming :
    WatchdogFires true ⟨31, 2, 0⟩ ∧
    (animateWatchdog []
      { camPos := ⟨31, 2, 0⟩, camRot := ⟨0, 0, 0⟩, isZooming := true
      , origPos := some ⟨1, 2, 1⟩, origRot := some ⟨0, 0, 0⟩, infoVisible := true
      , infoTitle := "", infoDesc := "", controlsLocked := false
      , velocity := ⟨0, 0, 0⟩, direction := ⟨0, 0, 0⟩
      , moveForward := false, moveBackward := false
      , moveLeft := false, moveRight := false }).camPos = ⟨0, 2, 0⟩ ∧
    (⟨0, 2, 0⟩ : Vec3) ≠ ⟨31, 2, 0⟩ := by
  have hf : WatchdogFires true ⟨31, 2, 0⟩ := by
    norm_num [WatchdogFires, ROOM_WIDTH, ROOM_LENGTH]
  refine ⟨hf, ?_, by decide⟩
  rw [animateWatchdog, if_pos hf]
  simp [emergencyReset]

/-- C3 (amended): while focused, the watchdog's height clause is exempted —
for every camera position whose horizontal coordinates are within 5 units of
the room footprint (any height, including `y < 0`), the watchdog does not
invoke the emergency reset; the exemption does NOT extend to the horizontal
clauses. -/
theorem watchdog_focus_exemption_amended : ∀ (furn : List FurnitureItem) (s : MuseumState),
    s.isZooming = true →
    -ROOM_WIDTH/2 - 5 ≤ s.camPos.x → s.camPos.x ≤ ROOM_WIDTH/2 + 5 →
    -ROOM_LENGTH/2 - 5 ≤ s.camPos.z → s.camPos.z ≤ ROOM_LENGTH/2 + 5 →
    animateWatchdog furn s = s := by
  intro furn s hz h1 h2 h3 h4
  rw [animateWatchdog, if_neg]
  rw [WatchdogFires, hz]
  rintro (⟨hc, _⟩ | hc | hc | hc | hc)
  · exact Bool.true_eq_false_eq_False hc
  · linarith
  · linarith
  · linarith
  · linarith

/-- Witness for C3: a focused camera below the floor (`y = -5`) but
horizontally inside the extended bounds is left untouched by the watchdog. -/
theorem watchdog_focus_exemption_witness :
    animateWatchdog []
      { camPos := ⟨0, -5, 0⟩, camRot := ⟨0, 0, 0⟩, isZooming := true
      , origPos := some ⟨1, 2, 1⟩, origRot := some ⟨0, 0, 0⟩, infoVisible := true
      , infoTitle := "", infoDesc := "", controlsLocked := false
      , velocity := ⟨0, 0, 0⟩, direction := ⟨0, 0, 0⟩
      , moveForward := false, moveBackward := false
      , moveLeft := false, moveRight := false } =
      { camPos := ⟨0, -5, 0⟩, camRot := ⟨0, 0, 0⟩, isZooming := true
      , origPos := some ⟨1, 2, 1⟩, origRot := some ⟨0, 0, 0⟩, infoVisible := true
      , infoTitle := "", infoDesc := "", controlsLocked := false
      , velocity := ⟨0, 0, 0⟩, direction := ⟨0, 0, 0⟩
      , moveForward := false, moveBackward := false
      , moveLeft := false, moveRight := false } := by
  apply watchdog_focus_exemption_amended
  · rfl
  · norm_num [ROOM_WIDTH]
  · norm_num [ROOM_WIDTH]
  · norm_num [ROOM_LENGTH]
  · norm_num [ROOM_LENGTH]

/-- Counterexample for C9: the furniture registry contains entries whose
rotation is NOT in the axis-aligned / rotated-90° class — the gift boxes are
pushed with `rotation = Math.random() * Math.PI/2`; with the random draw
`1/2` the stored rotation is `π/4`. -/
theorem giftbox_rotation_not_right_angle :
    ∃ it ∈ museumFurniture (1/2) (1/2) (1/2) (1/2) (1/2) (1/2),
      ¬ RightAngleClass it.rotation := by
  refine ⟨createGiftBoxEntry (-ROOM_WIDTH/3) 0 (-ROOM_LENGTH/3) (8/10) (5/10) (8/10) (1/2),
    ?_, ?_⟩
  · simp [museumFurniture]
  · rintro ⟨k, hk⟩
    simp only [createGiftBoxEntry, Option.some.injEq] at hk
    have h2 : ((2 * k : ℤ) : ℚ) = 1 := by push_cast; linarith [hk]
    have h3 : (2 * k : ℤ) = 1 := by exact_mod_cast h2
    omega

/-- C9 (amended): every planter, bench and balloon entry of the furniture
registry is axis-aligned (`rotation` absent or `0`); only the six gift-box
entries carry the arbitrary random draws `gᵢ`.  And the collision engine
uses an item's rotation only through the bound-swap test `rotSwapFlag`:
item lists that agree except for rotations with equal swap flags produce
identical collision results. -/
theorem rotation_usage_amended : ∀ (g1 g2 g3 g4 g5 g6 : ℚ)
    (l1 l2 : List FurnitureItem) (p : Vec3),
    (∀ it ∈ museumFurniture g1 g2 g3 g4 g5 g6,
      it.rotation = none ∨ it.rotation = some 0 ∨
      it.rotation ∈ [some g1, some g2, some g3, some g4, some g5, some g6]) ∧
    (List.Forall₂ (fun a b : FurnitureItem =>
        a.type = b.type ∧ a.position = b.position ∧ a.dimensions = b.dimensions ∧
        (rotSwapFlag a ↔ rotSwapFlag b)) l1 l2 →
      checkFurnitureCollision l1 p = checkFurnitureCollision l2 p) := by
  intro g1 g2 g3 g4 g5 g6 l1 l2 p
  constructor
  · intro it hit
    simp only [museumFurniture, List.mem_cons, List.not_mem_nil, or_false] at hit
    rcases hit with rfl | rfl | rfl | rfl | rfl | rfl | rfl | rfl | rfl | rfl | rfl |
      rfl | rfl | rfl | rfl | rfl | rfl <;>
      simp [createPlanterEntry, createBenchEntry, createBalloonEntry, createGiftBoxEntry]
  · exact checkFurnitureCollision_congr p l1 l2

/-- Witness for C9: the registry part at concrete draws, and two benches
differing only in (nonzero) rotation give the same collision result. -/
theorem rotation_usage_amended_witness :
    ((createBenchEntry 0 (-ROOM_LENGTH/4) 0).rotation = none ∨
      (createBenchEntry 0 (-ROOM_LENGTH/4) 0).rotation = some 0 ∨
      (createBenchEntry 0 (-ROOM_LENGTH/4) 0).rotation ∈
        [some (1:ℚ), some 1, some 1, some 1, some 1, some 1]) ∧
    checkFurnitureCollision [createBenchEntry 0 0 1] ⟨0, 1, 0⟩ =
      checkFurnitureCollision [createBenchEntry 0 0 2] ⟨0, 1, 0⟩ := by
  constructor
  · exact ((rotation_usage_amended 1 1 1 1 1 1 [] [] ⟨0, 1, 0⟩).1
      (createBenchEntry 0 (-ROOM_LENGTH/4) 0) (by simp [museumFurniture]))
  · exact (rotation_usage_amended 1 1 1 1 1 1
      [createBenchEntry 0 0 1] [createBenchEntry 0 0 2] ⟨0, 1, 0⟩).2
      (List.Forall₂.cons
        ⟨rfl, rfl, rfl, by norm_num [rotSwapFlag, createBenchEntry]⟩
        List.Forall₂.nil)

/-- C10: every entry of the artwork registry is fully populated at insertion
time — the texture-load callback sets `width`, `height`, `title` and
`description` on every object it pushes (`artworkInfo` has an entry for each
of the eleven image indices) — and consequently the undefined-dimension
guard of `findNearestArtwork` never skips a registry entry. -/
theorem artwork_registry_fully_populated : ∀ (dims : Nat → ℚ × ℚ) (e : ArtEntry),
    e ∈ artworksAfterLoad dims →
    (e.width ≠ none ∧ e.height ≠ none ∧ e.title ≠ none ∧ e.descr ≠ none) ∧
    ∀ (v : ArtView), v.width = e.width → v.height = e.height →
      unloadedSkip v = false := by
  intro dims e he
  simp only [artworksAfterLoad, List.mem_map, List.mem_range] at he
  obtain ⟨i, hi, rfl⟩ := he
  have hlen : i < artworkInfo.length := by
    rw [show artworkInfo.length = 11 from rfl]
    simpa [imagePathsLength] using hi
  refine ⟨⟨by simp [pushArtworkEntry], by simp [pushArtworkEntry], ?_, ?_⟩, ?_⟩
  · simp only [pushArtworkEntry, ne_eq, Option.map_eq_none', List.get?_eq_none]
    omega
  · simp only [pushArtworkEntry, ne_eq, Option.map_eq_none', List.get?_eq_none]
    omega
  · intro v hw hh
    simp [unloadedSkip, hw, hh, pushArtworkEntry]

/-- Witness for C10: the entry pushed for image index 0 with computed
dimensions `4 × 3` has a title, and a scan view carrying its dimensions is
not skipped by the undefined-dimension guard. -/
theorem artwork_registry_fully_populated_witness :
    (pushArtworkEntry 0 4 3).title ≠ none ∧
    unloadedSkip ⟨(pushArtworkEntry 0 4 3).width, (pushArtworkEntry 0 4 3).height, 5, 0⟩ = false := by
  have h := artwork_registry_fully_populated (fun _ => (4, 3)) (pushArtworkEntry 0 4 3)
    (List.mem_map.mpr ⟨0, List.mem_range.mpr (by norm_num [imagePathsLength]), rfl⟩)
  exact ⟨h.1.2.2.1, h.2 ⟨(pushArtworkEntry 0 4 3).width, (pushArtworkEntry 0 4 3).height, 5, 0⟩ rfl rfl⟩

/-- C1: the movement step of the animation loop COMMITS a blocked position.
At yaw `0`, with all four intent flags false (normalized direction `(0,0)`,
justified by `NormalizedIntentDir`), delta `0.01`, camera at `(0,2,0)`
(collision-free) and residual velocity `(-200,0,0)`, the tick's candidate
check passes (the candidate equals the current position), but the committed
move `controls.moveRight(-velocity.x*delta)` lands at `(1.8, 2, 0)` — inside
the planter's footprint-plus-margin, where `checkFurnitureCollision` is
true at the tick's post-move height. -/
theorem moveTick_commits_blocked_position :
    NormalizedIntentDir ⟨false, false, false, false⟩ (0, 0) ∧
    checkFurnitureCollision [createPlanterEntry 2 0] ⟨0, 2, 0⟩ = false ∧
    (moveTick [createPlanterEntry 2 0] 0 1 (0, 0) ⟨false, false, false, false⟩ (1/100)
      { pos := ⟨0, 2, 0⟩, vel := ⟨-200, 0, 0⟩, isJumping := false
      , jumpVelocity := 0, canJump := true }).pos = ⟨9/5, 2, 0⟩ ∧
    checkFurnitureCollision [createPlanterEntry 2 0] ⟨9/5, 2, 0⟩ = true := by
  refine ⟨Or.inl ⟨by norm_num [intentDirX], by norm_num [intentDirZ], rfl⟩, ?_, ?_, ?_⟩
  · norm_num [checkFurnitureCollision, itemCheck, createPlanterEntry, rotSwapFlag, abs_lt]
  · norm_num [moveTick, movePhase, jumpPhase, dampVelocity, movePrimitive,
      checkFurnitureCollision, itemCheck, createPlanterEntry, rotSwapFlag, benchTotalHeight,
      abs_lt, ROOM_WIDTH, ROOM_LENGTH, GRAVITY, BenchStandHere, BenchLandHere]
  · norm_num [checkFurnitureCollision, itemCheck, createPlanterEntry, rotSwapFlag, abs_lt]
    norm_num [benchTotalHeight]

/-- C4: for a pose strictly inside the room interior inset by 1, with height
at least 2 and no furniture collision at it, entering focus and then exiting
restores the camera exactly — position and orientation. -/
theorem zoom_roundtrip_restores_pose : ∀ (furn : List FurnitureItem) (lookRot : Euler)
    (art : ZoomArt) (s : MuseumState),
    s.isZooming = false →
    -ROOM_WIDTH/2 + 1 < s.camPos.x → s.camPos.x < ROOM_WIDTH/2 - 1 →
    -ROOM_LENGTH/2 + 1 < s.camPos.z → s.camPos.z < ROOM_LENGTH/2 - 1 →
    2 ≤ s.camPos.y →
    checkFurnitureCollision furn s.camPos = false →
    (resetZoom furn (zoomToArtwork lookRot art s)).camPos = s.camPos ∧
    (resetZoom furn (zoomToArtwork lookRot art s)).camRot = s.camRot := by
  intro furn lookRot art s hz hx1 hx2 hz1 hz2 hy hcol
  have h1 : (zoomToArtwork lookRot art s).origPos = some s.camPos := by
    rw [zoomToArtwork, if_neg (by simp [hz])]
  have h2 : (zoomToArtwork lookRot art s).origRot = some s.camRot := by
    rw [zoomToArtwork, if_neg (by simp [hz])]
  have hvx : max (-ROOM_WIDTH/2 + 1) (min (ROOM_WIDTH/2 - 1) s.camPos.x) = s.camPos.x := by
    rw [min_eq_right (le_of_lt hx2), max_eq_right (le_of_lt hx1)]
  have hvz : max (-ROOM_LENGTH/2 + 1) (min (ROOM_LENGTH/2 - 1) s.camPos.z) = s.camPos.z := by
    rw [min_eq_right (le_of_lt hz2), max_eq_right (le_of_lt hz1)]
  have hvy : max 2 s.camPos.y = s.camPos.y := max_eq_right hy
  constructor
  · simp only [resetZoom, h1, h2, hvx, hvz, hvy]
    simp [hcol]
  · simp only [resetZoom, h2]

/-- Witness for C4: a concrete round trip from `(3,2,4)` with an empty
furniture list restores the exact pose. -/
theorem zoom_roundtrip_restores_pose_witness :
    (resetZoom [] (zoomToArtwork ⟨0, 1, 0⟩ ⟨⟨0, 3, -29/2⟩, 0, 1, 4, 3, "t", "d"⟩
      { camPos := ⟨3, 2, 4⟩, camRot := ⟨0, 2, 0⟩, isZooming := false
      , origPos := none, origRot := none, infoVisible := false
      , infoTitle := "", infoDesc := "", controlsLocked := true
      , velocity := ⟨0, 0, 0⟩, direction := ⟨0, 0, 0⟩
      , moveForward := false, moveBackward := false
      , moveLeft := false, moveRight := false })).camPos = ⟨3, 2, 4⟩ ∧
    (resetZoom [] (zoomToArtwork ⟨0, 1, 0⟩ ⟨⟨0, 3, -29/2⟩, 0, 1, 4, 3, "t", "d"⟩
      { camPos := ⟨3, 2, 4⟩, camRot := ⟨0, 2, 0⟩, isZooming := false
      , origPos := none, origRot := none, infoVisible := false
      , infoTitle := "", infoDesc := "", controlsLocked := true
      , velocity := ⟨0, 0, 0⟩, direction := ⟨0, 0, 0⟩
      , moveForward := false, moveBackward := false
      , moveLeft := false, moveRight := false })).camRot = ⟨0, 2, 0⟩ :=
  zoom_roundtrip_restores_pose [] ⟨0, 1, 0⟩ ⟨⟨0, 3, -29/2⟩, 0, 1, 4, 3, "t", "d"⟩
    _ rfl (by norm_num [ROOM_WIDTH]) (by norm_num [ROOM_WIDTH])
    (by norm_num [ROOM_LENGTH]) (by norm_num [ROOM_LENGTH])
    (by norm_num) rfl

/-- C5: `findNearestArtwork` returns the maximum-score candidate: it returns
`none` exactly when no artwork qualifies (within the size-adjusted distance
and angle thresholds); any returned artwork qualifies and its score bounds
every qualifying artwork's score; a leading artwork whose score is tied-or-
better than all others is returned (first-encountered tie resolution); and
for two candidates with strictly different scores the higher-scoring one is
returned in either registry order. -/
theorem findNearestArtwork_spec : ∀ (l : List ArtView) (a b : ArtView),
    (findNearestArtwork l = none ↔ ∀ x ∈ l, qualifies x = false) ∧
    (∀ r, findNearestArtwork l = some r →
      qualifies r = true ∧ r ∈ l ∧
      ∀ x ∈ l, qualifies x = true → scoreOf x ≤ scoreOf r) ∧
    (qualifies a = true → (∀ x ∈ l, qualifies x = true → scoreOf x ≤ scoreOf a) →
      findNearestArtwork (a :: l) = some a) ∧
    (qualifies a = true → qualifies b = true → scoreOf b < scoreOf a →
      findNearestArtwork [a, b] = some a ∧ findNearestArtwork [b, a] = some a) := by
  intro l a b
  refine ⟨?_, ?_, ?_, ?_⟩
  · rw [findNearestArtwork, Option.map_eq_none']
    exact selAux_none_iff l
  · intro r hr
    rw [findNearestArtwork] at hr
    rcases Option.map_eq_some'.mp hr with ⟨⟨r', s'⟩, hsel, hfst⟩
    cases hfst
    obtain ⟨hq, hs, hmem, hbound⟩ := selAux_some_spec l r' s' hsel
    exact ⟨hq, hmem, fun x hx hqx => hs ▸ hbound x hx hqx⟩
  · intro hq hmax
    rw [findNearestArtwork, selAux_head_max a l hq hmax, Option.map_some']
  · intro hqa hqb hlt
    constructor
    · rw [findNearestArtwork, selAux_head_max a [b] hqa ?bound, Option.map_some']
      case bound =>
        intro x hx _
        rcases List.mem_singleton.mp hx with rfl
        exact le_of_lt hlt
    · rw [findNearestArtwork, selAux_cons, selAux_cons]
      simp only [List.foldl]
      rw [entryOf, if_pos hqb, entryOf, if_pos hqa, scanStep_none_right,
        scanStep_some_some, if_pos hlt, Option.map_some']

/-- Witness for C5: two concrete candidates with scores `20` and `12`; the
higher-scoring one is selected in both registry orders. -/
theorem findNearestArtwork_spec_witness :
    findNearestArtwork [⟨some 4, some 3, 5, 1/10⟩, ⟨some 2, some 2, 8, 1/5⟩] =
      some ⟨some 4, some 3, 5, 1/10⟩ ∧
    findNearestArtwork [⟨some 2, some 2, 8, 1/5⟩, ⟨some 4, some 3, 5, 1/10⟩] =
      some ⟨some 4, some 3, 5, 1/10⟩ :=
  (findNearestArtwork_spec [] ⟨some 4, some 3, 5, 1/10⟩ ⟨some 2, some 2, 8, 1/5⟩).2.2.2
    (by norm_num [qualifies, artMaxDistance, artAngleThresholdFrac])
    (by norm_num [qualifies, artMaxDistance, artAngleThresholdFrac])
    (by norm_num [scoreOf, artScoreVal, artMaxDistance])
